import Mathlib

/-!
Verification of the PyCurl `Http` client (src/HttpOld.py) against its
natural-language specification.

The Python code is shallowly embedded: Python dicts become association
lists with Python's update semantics, the on-disk cookie jar becomes a
`FileContent` value, network and filesystem behaviour is supplied as an
explicit environment, and every operation returns a trace recording the
external calls it made together with its result and the state it leaves
behind.  Machine behaviour that the code cannot observe (logging text,
progress-bar rendering) is not modelled.
-/

namespace PyCurl

/-- A Python `dict` of strings, as an association list in insertion order
(keys are unique in every dict the program builds). -/
abbrev Dict := List (String × String)

/-- Lookup in a dict: first binding of the key wins. -/
def dictGet : Dict → String → Option String
  | [], _ => none
  | (k, v) :: rest, k' => if k = k' then some v else dictGet rest k'

/-- Does the dict bind this key? -/
def dictHasKey : Dict → String → Bool
  | [], _ => false
  | (k0, _) :: rest, k => if k0 = k then true else dictHasKey rest k

/-- Replace the value of an existing key, keeping insertion order. -/
def dictSetKey : Dict → String → String → Dict
  | [], _, _ => []
  | (k0, v0) :: rest, k, v =>
      if k0 = k then (k0, v) :: dictSetKey rest k v
      else (k0, v0) :: dictSetKey rest k v

/-- Python dict update for one binding: override in place if the key is
present, otherwise append at the end. -/
def dictInsert (d : Dict) (k v : String) : Dict :=
  if dictHasKey d k then dictSetKey d k v else d ++ [(k, v)]

/-- Python `{**d1, **d2}`: start from `d1` and update with each binding of
`d2` in order, so `d2` wins on key collision. -/
def dictMerge (d1 d2 : Dict) : Dict :=
  d2.foldl (fun acc p => dictInsert acc p.1 p.2) d1

/-- `optOr a b`: Python-style "a if a is not None else b". -/
def optOr (a b : Option String) : Option String :=
  match a with
  | some x => some x
  | none => b

theorem dictHasKey_false_get (d : Dict) (k : String)
    (h : dictHasKey d k = false) : dictGet d k = none := by
  induction d with
  | nil => rfl
  | cons p rest ih =>
      obtain ⟨k0, v0⟩ := p
      by_cases he : k0 = k
      · simp [dictHasKey, he] at h
      · simp only [dictHasKey, he, if_false] at h
        simp [dictGet, he, ih h]

theorem dictGet_not_mem (d : Dict) (k : String) (h : k ∉ d.map Prod.fst) :
    dictGet d k = none := by
  induction d with
  | nil => rfl
  | cons p rest ih =>
      obtain ⟨k0, v0⟩ := p
      simp only [List.map_cons, List.mem_cons] at h
      push_neg at h
      have hne : ¬k0 = k := fun he => h.1 he.symm
      simp [dictGet, hne, ih h.2]

theorem dictGet_setKey_self (d : Dict) (k v : String)
    (h : dictHasKey d k = true) : dictGet (dictSetKey d k v) k = some v := by
  induction d with
  | nil => simp [dictHasKey] at h
  | cons p rest ih =>
      obtain ⟨k0, v0⟩ := p
      by_cases he : k0 = k
      · simp [dictSetKey, he, dictGet]
      · simp only [dictHasKey, he, if_false] at h
        simp [dictSetKey, he, dictGet, ih h]

theorem dictGet_setKey_other (d : Dict) (k v k' : String) (h : k ≠ k') :
    dictGet (dictSetKey d k v) k' = dictGet d k' := by
  induction d with
  | nil => rfl
  | cons p rest ih =>
      obtain ⟨k0, v0⟩ := p
      by_cases he : k0 = k
      · simp [dictSetKey, he, dictGet, h, ih]
      · simp [dictSetKey, he, dictGet, ih]

theorem dictGet_append (d1 d2 : Dict) (k : String) :
    dictGet (d1 ++ d2) k = optOr (dictGet d1 k) (dictGet d2 k) := by
  induction d1 with
  | nil => simp [dictGet, optOr]
  | cons p rest ih =>
      obtain ⟨k0, v0⟩ := p
      by_cases he : k0 = k
      · simp [dictGet, he, optOr]
      · simp [dictGet, he, ih]

/-- The single-binding update law for `dictInsert`. -/
theorem dictGet_insert (d : Dict) (k v k' : String) :
    dictGet (dictInsert d k v) k' = if k = k' then some v else dictGet d k' := by
  unfold dictInsert
  by_cases hk : dictHasKey d k
  · simp [hk]
    by_cases he : k = k'
    · subst he; simp [dictGet_setKey_self d k v hk]
    · simp [he, dictGet_setKey_other d k v k' he]
  · simp at hk
    simp [hk, dictGet_append]
    by_cases he : k = k'
    · subst he
      simp [dictHasKey_false_get d k hk, optOr, dictGet]
    · simp [he]
      cases hg : dictGet d k' with
      | some x => simp [optOr]
      | none => simp [optOr, dictGet, he]

/-- Merged lookup: the second dict's binding wins when its keys are unique
(as they are for every Python dict). -/
theorem dictGet_merge (d1 d2 : Dict) (k : String)
    (h : (d2.map Prod.fst).Nodup) :
    dictGet (dictMerge d1 d2) k = optOr (dictGet d2 k) (dictGet d1 k) := by
  induction d2 generalizing d1 with
  | nil => simp [dictMerge, dictGet, optOr]
  | cons p rest ih =>
      obtain ⟨k2, v2⟩ := p
      simp only [List.map_cons, List.nodup_cons] at h
      have hstep : dictMerge d1 ((k2, v2) :: rest) = dictMerge (dictInsert d1 k2 v2) rest := by
        simp [dictMerge, List.foldl_cons]
      rw [hstep, ih _ h.2]
      by_cases he : k2 = k
      · subst he
        have hrest : dictGet rest k2 = none := dictGet_not_mem rest k2 h.1
        simp [hrest, dictGet, dictGet_insert, optOr]
      · simp [dictGet, he, dictGet_insert]

/-- The on-disk `cookies.json` file: absent, unreadable/not valid JSON, or a
valid JSON object. -/
inductive FileContent where
  | absent
  | corrupt
  | valid (d : Dict)
deriving DecidableEq, Repr

/-- The cookie-jar read both `_request` and `_save_cookies` perform:
`json.load(open('cookies.json'))` with `IOError`/`JSONDecodeError` caught and
replaced by `{}` (HttpOld.py lines 129-133 and 161-165). -/
def loadCookies : FileContent → Dict
  | .valid d => d
  | _ => []

/-- `_save_cookies` (HttpOld.py lines 121-143): re-read the on-disk jar
(tolerating absence/corruption as `{}`), merge it with the new cookies with
the new entries winning, and overwrite the file; an `IOError` while writing
is caught and only logged, leaving the file as it was. Returns the resulting
file content; the operation itself never raises. -/
def save_cookies (disk : FileContent) (write_fails : Bool) (new : Dict) : FileContent :=
  let existing := loadCookies disk
  let all := dictMerge existing new
  if write_fails then disk else .valid all

/-- The mutable fields of an `Http` instance that the dispatcher touches
(HttpOld.py `__init__`, lines 37-44). Headers/auth/timeout/redirect flag are
carried so the request they are sent with is recorded faithfully. -/
structure ClientState where
  headers : Dict
  cookies : Dict
  auth : Option (String × String)
  timeout : Option Nat
  follow_redirects : Bool
  base_url : String
  error_message : Option String
  error_code : Option Nat
deriving DecidableEq, Repr

/-- A response delivered by `requests`: status code, response cookies (as the
dict `requests.utils.dict_from_cookiejar` produces), content-type header and
body text. -/
structure HttpResponse where
  status_code : Nat
  cookies : Dict
  content_type : String
  body : String
deriving DecidableEq, Repr

/-- Outcome of the underlying `session.request` call: a transport-level
`RequestException` with no response attached, or a response. -/
inductive NetOutcome where
  | transportError (msg : String)
  | response (r : HttpResponse)
deriving DecidableEq, Repr

/-- `response.raise_for_status()` raises for 4xx and 5xx status codes. -/
def is_error_status (c : Nat) : Bool :=
  400 ≤ c && c < 600

/-- `'application/json' in response.headers.get('content-type', '')`:
substring containment. -/
def strContains (hay needle : String) : Bool :=
  (List.range (hay.data.length + 1)).any
    (fun i => needle.data.isPrefixOf (hay.data.drop i))

/-- `str(e)` for the `HTTPError` that `raise_for_status` raises. -/
def http_error_message (code : Nat) (url : String) : String :=
  toString code ++ " Error for url: " ++ url

/-- The normalized body `_request` returns: `response.json()` when the
content-type contains `application/json`, else `response.text`. -/
inductive Normalized where
  | jsonOf (s : String)
  | textOf (s : String)
deriving DecidableEq, Repr

/-- What a `_request` call does from the caller's point of view: return a
normalized body, or re-raise the `RequestException` (message plus
`getattr(e.response, 'status_code', None)`). -/
inductive ReqResult where
  | ok (v : Normalized)
  | raised (msg : String) (code : Option Nat)
deriving DecidableEq, Repr

/-- Everything observable about one `_request` dispatch: the cookie dict the
HTTP call was issued with, the result, the client state left behind, and the
on-disk jar left behind. -/
structure RequestTrace where
  sent_method : String
  sent_cookies : Dict
  result : ReqResult
  state : ClientState
  disk : FileContent
deriving DecidableEq, Repr

/-- `_request` (HttpOld.py lines 145-189): load the saved jar (absent/corrupt
read as `{}`), merge with the in-memory cookies (`{**saved, **self.cookies}`,
in-memory wins), clear both error fields and set `base_url`, issue the call,
`raise_for_status`, save the response cookies, and normalize the body; a
`RequestException` sets both error fields and is re-raised.  `method`/`url`
are the dispatch arguments, `net` the network's behaviour, `write_fails`
whether the jar write raises `IOError`. -/
def http_request (st : ClientState) (disk : FileContent) (write_fails : Bool)
    (method url : String) (net : NetOutcome) : RequestTrace :=
  let saved := loadCookies disk
  let combined := dictMerge saved st.cookies
  let st1 := { st with error_message := none, error_code := none, base_url := url }
  match net with
  | .transportError msg =>
      ⟨method, combined, .raised msg none,
        { st1 with error_message := some msg, error_code := none }, disk⟩
  | .response r =>
      if is_error_status r.status_code then
        let msg := http_error_message r.status_code url
        ⟨method, combined, .raised msg (some r.status_code),
          { st1 with error_message := some msg, error_code := some r.status_code }, disk⟩
      else
        let disk2 := save_cookies disk write_fails r.cookies
        let body := if strContains r.content_type "application/json"
          then Normalized.jsonOf r.body else Normalized.textOf r.body
        ⟨method, combined, .ok body, st1, disk2⟩

/-- A dispatch attempt counts as failed when the transport raised or the
status was an error status. -/
def req_failed (net : NetOutcome) : Bool :=
  match net with
  | .transportError _ => true
  | .response r => is_error_status r.status_code

/-- C2: every verb dispatch clears both ErrorState fields at the start of the
attempt; a failure sets both together (code = response status, or absent for
a transport-level failure); a success leaves both absent, whatever error
values the previous dispatch left in `st`. -/
theorem error_state_invariant (st : ClientState) (disk : FileContent)
    (write_fails : Bool) (method url : String) (net : NetOutcome) :
    match net with
    | .transportError msg =>
        (http_request st disk write_fails method url net).state.error_message = some msg ∧
        (http_request st disk write_fails method url net).state.error_code = none
    | .response r =>
        if is_error_status r.status_code then
          (http_request st disk write_fails method url net).state.error_message =
            some (http_error_message r.status_code url) ∧
          (http_request st disk write_fails method url net).state.error_code =
            some r.status_code
        else
          (http_request st disk write_fails method url net).state.error_message = none ∧
          (http_request st disk write_fails method url net).state.error_code = none := by
  cases net with
  | transportError msg => exact ⟨rfl, rfl⟩
  | response r =>
      by_cases h : is_error_status r.status_code
      · simp [http_request, h]
      · simp [http_request, h]

/-- C3: a failed dispatch (error status or transport failure) leaves the
on-disk cookie jar exactly as it was; the jar is rewritten (via
`save_cookies`) only after a successful response. -/
theorem jar_unchanged_on_failed_dispatch (st : ClientState) (disk : FileContent)
    (write_fails : Bool) (method url : String) (net : NetOutcome) :
    match net with
    | .transportError _ =>
        (http_request st disk write_fails method url net).disk = disk
    | .response r =>
        if is_error_status r.status_code then
          (http_request st disk write_fails method url net).disk = disk
        else
          (http_request st disk write_fails method url net).disk =
            save_cookies disk write_fails r.cookies := by
  cases net with
  | transportError msg => rfl
  | response r =>
      by_cases h : is_error_status r.status_code
      · simp [http_request, h]
      · simp [http_request, h]

/-- C4: saving cookies over an on-disk mapping `D` with new cookies `N`
overwrites the file with exactly the merge `D ∪ N`, new entries winning on
key collision; in particular disk `{a:1}` merged with new `{a:2,b:3}` yields
`{a:2,b:3}` on disk. -/
theorem save_cookies_merge_semantics (D N : Dict) (k : String)
    (h : (N.map Prod.fst).Nodup) :
    save_cookies (.valid D) false N = .valid (dictMerge D N) ∧
    dictGet (dictMerge D N) k = optOr (dictGet N k) (dictGet D k) ∧
    save_cookies (.valid [("a", "1")]) false [("a", "2"), ("b", "3")] =
      .valid [("a", "2"), ("b", "3")] :=
  ⟨rfl, dictGet_merge D N k h, by decide⟩

/-- Witness for C4 at the spec's own example. -/
theorem save_cookies_merge_semantics_witness :
    (([("a", "2"), ("b", "3")] : Dict).map Prod.fst).Nodup ∧
    (save_cookies (.valid [("a", "1")]) false [("a", "2"), ("b", "3")] =
        .valid (dictMerge [("a", "1")] [("a", "2"), ("b", "3")]) ∧
      dictGet (dictMerge [("a", "1")] [("a", "2"), ("b", "3")]) "a" =
        optOr (dictGet [("a", "2"), ("b", "3")] "a") (dictGet [("a", "1")] "a") ∧
      save_cookies (.valid [("a", "1")]) false [("a", "2"), ("b", "3")] =
        .valid [("a", "2"), ("b", "3")]) :=
  ⟨by decide,
   save_cookies_merge_semantics [("a", "1")] [("a", "2"), ("b", "3")] "a" (by decide)⟩

/-- Helper: whatever the network does, the cookies sent are the merge of the
loaded jar with the in-memory cookies. -/
theorem http_request_sent_cookies (st : ClientState) (disk : FileContent)
    (write_fails : Bool) (method url : String) (net : NetOutcome) :
    (http_request st disk write_fails method url net).sent_cookies =
      dictMerge (loadCookies disk) st.cookies := by
  cases net with
  | transportError msg => rfl
  | response r =>
      by_cases h : is_error_status r.status_code
      · simp [http_request, h]
      · simp [http_request, h]

/-- C5: every verb dispatch sends the persisted jar mapping merged with the
client's in-memory cookies, the in-memory entries winning on key collision. -/
theorem dispatch_cookie_merge (st : ClientState) (disk : FileContent)
    (write_fails : Bool) (method url : String) (net : NetOutcome) (k : String)
    (h : (st.cookies.map Prod.fst).Nodup) :
    (http_request st disk write_fails method url net).sent_cookies =
      dictMerge (loadCookies disk) st.cookies ∧
    dictGet (http_request st disk write_fails method url net).sent_cookies k =
      optOr (dictGet st.cookies k) (dictGet (loadCookies disk) k) := by
  refine ⟨http_request_sent_cookies st disk write_fails method url net, ?_⟩
  rw [http_request_sent_cookies st disk write_fails method url net]
  exact dictGet_merge (loadCookies disk) st.cookies k h

/-- Witness for C5: an in-memory cookie `x` shadows the persisted one. -/
theorem dispatch_cookie_merge_witness :
    (([("x", "mem")] : Dict).map Prod.fst).Nodup ∧
    ((http_request
        ⟨[], [("x", "mem")], none, none, true, "", none, none⟩
        (.valid [("x", "disk"), ("y", "d")]) false "get" "http://e"
        (.response ⟨200, [], "text/html", "ok"⟩)).sent_cookies =
      dictMerge (loadCookies (.valid [("x", "disk"), ("y", "d")])) [("x", "mem")] ∧
     dictGet (http_request
        ⟨[], [("x", "mem")], none, none, true, "", none, none⟩
        (.valid [("x", "disk"), ("y", "d")]) false "get" "http://e"
        (.response ⟨200, [], "text/html", "ok"⟩)).sent_cookies "x" =
      optOr (dictGet [("x", "mem")] "x")
        (dictGet (loadCookies (.valid [("x", "disk"), ("y", "d")])) "x")) :=
  ⟨by decide,
   dispatch_cookie_merge
     ⟨[], [("x", "mem")], none, none, true, "", none, none⟩
     (.valid [("x", "disk"), ("y", "d")]) false "get" "http://e"
     (.response ⟨200, [], "text/html", "ok"⟩) "x" (by decide)⟩

/-- C6: cookie persistence failures never surface: a load of a missing,
unreadable or malformed jar yields the empty mapping, and a failing jar
write changes neither the result of the dispatch nor the client state it
leaves (it is logged only). -/
theorem cookie_persistence_never_surfaces :
    loadCookies .absent = [] ∧ loadCookies .corrupt = [] ∧
    ∀ (st : ClientState) (disk : FileContent) (method url : String) (net : NetOutcome),
      (http_request st disk true method url net).result =
        (http_request st disk false method url net).result ∧
      (http_request st disk true method url net).state =
        (http_request st disk false method url net).state := by
  refine ⟨rfl, rfl, ?_⟩
  intro st disk method url net
  cases net with
  | transportError msg => exact ⟨rfl, rfl⟩
  | response r =>
      by_cases h : is_error_status r.status_code
      · simp [http_request, h]
      · simp [http_request, h]

/-- Python truthiness of the `download_dir` argument: `None` and `""` are
falsy. -/
def isFalsyArg : Option String → Bool
  | none => true
  | some s => s == ""

/-- Python `str.lower()` (ASCII range, which covers HTTP method names). -/
def strToLower (s : String) : String :=
  ⟨s.data.map Char.toLower⟩

/-- `str.startswith`. -/
def strStartsWith (s p : String) : Bool :=
  p.data.isPrefixOf s.data

/-- `str.endswith`. -/
def strEndsWith (s p : String) : Bool :=
  p.data.reverse.isPrefixOf s.data.reverse

/-- `str.find`: index of the first occurrence of `needle`, or none (-1). -/
def strFind (hay needle : String) : Option Nat :=
  (List.range (hay.data.length + 1)).find?
    (fun i => needle.data.isPrefixOf (hay.data.drop i))

/-- Python `str.strip('"')`: drop every leading and trailing `"`. -/
def stripQuotes (s : String) : String :=
  ⟨((s.data.dropWhile (· == '"')).reverse.dropWhile (· == '"')).reverse⟩

/-- Filename choice of `download_large_file` (HttpOld.py lines 360-369):
take the text after `filename=` in the content-disposition header, stripped
of quotes; when the header is absent or has no `filename=`, fall back to the
caller's `file_name` (which may itself be `None`). -/
def dl_filename (cd : Option String) (file_name : Option String) : Option String :=
  match cd with
  | some c =>
      match strFind c "filename=" with
      | some i => some (stripQuotes ⟨c.data.drop (i + 9)⟩)
      | none => file_name
  | none => file_name

/-- `os.path.join(a, b)` for the two-argument case with string `b`. -/
def os_path_join (a b : String) : String :=
  if strStartsWith b "/" then b
  else if a = "" ∨ strEndsWith a "/" then a ++ b
  else a ++ "/" ++ b

/-- The response the streaming call returns: status, declared length,
content-disposition header and the chunk sizes `iter_content` yields. -/
structure DlResp where
  status_code : Nat
  content_length : Nat
  content_disposition : Option String
  chunks : List Nat
deriving DecidableEq, Repr

/-- External behaviour a `download_large_file` call runs against: `net = none`
means the `session.get/post` call itself raises `RequestException`;
`stream_fails` means `iter_content` raises one mid-stream;
`file_absent_after` is the (pathological) `os.path.exists` result being
false after the write loop. -/
structure DlEnv where
  net : Option DlResp
  stream_fails : Bool
  file_absent_after : Bool
deriving DecidableEq, Repr

/-- One streaming HTTP call as issued by `download_large_file`: it passes
`self.headers` and `self.cookies` directly (lines 347-352). -/
structure DlCall where
  method : String
  url : String
  cookies : Dict
  headers : Dict
deriving DecidableEq, Repr

/-- A Python exception escaping `download_large_file` (its handler catches
only `requests.RequestException`). -/
inductive PyError where
  | valueError (msg : String)
  | typeError (msg : String)
deriving DecidableEq, Repr

/-- How a `download_large_file` call ends: `return False` (no directory),
`return None` (caught failure), `return path`, or an uncaught exception. -/
inductive DlResult where
  | retFalse
  | retNone
  | retPath (p : String)
  | raised (e : PyError)
deriving DecidableEq, Repr

/-- Observable trace of one `download_large_file` call: the streaming calls
issued, the outcome, the on-disk cookie jar afterwards (the function never
touches `cookies.json`, so it is threaded through unchanged on every path),
and the final progress count. -/
structure DlTrace where
  calls : List DlCall
  result : DlResult
  disk : FileContent
  written : Nat
deriving DecidableEq, Repr

/-- `download_large_file` (HttpOld.py lines 326-390): refuse a falsy
`download_dir` with `return False`; dispatch on `method.lower()` — `get` and
`post` stream with the client's headers/cookies/auth, anything else raises
`ValueError`; `raise_for_status`; choose the filename from
content-disposition or the `file_name` fallback; `os.path.join` the
destination path (a `TypeError` if the filename is `None`); stream the
chunks, skipping empty ones; finally return the path if it exists on disk.
`requests.RequestException` anywhere in that is caught and turned into
`return None`. -/
def download_large_file (st : ClientState) (disk : FileContent)
    (url method : String) (download_dir : Option String)
    (file_name : Option String) (env : DlEnv) : DlTrace :=
  if isFalsyArg download_dir then ⟨[], .retFalse, disk, 0⟩
  else
    let ddir := download_dir.getD ""
    let mlow := strToLower method
    if mlow = "get" ∨ mlow = "post" then
      let call : DlCall := ⟨mlow, url, st.cookies, st.headers⟩
      match env.net with
      | none => ⟨[call], .retNone, disk, 0⟩
      | some r =>
          if is_error_status r.status_code then ⟨[call], .retNone, disk, 0⟩
          else
            match dl_filename r.content_disposition file_name with
            | none =>
                ⟨[call],
                 .raised (.typeError "join() argument must be str, bytes, or os.PathLike object, not NoneType"),
                 disk, 0⟩
            | some fn =>
                let path := os_path_join ddir fn
                if env.stream_fails then ⟨[call], .retNone, disk, 0⟩
                else
                  let written := ((r.chunks.filter (· ≠ 0)).foldl (· + ·) 0)
                  if env.file_absent_after then ⟨[call], .retNone, disk, written⟩
                  else ⟨[call], .retPath path, disk, written⟩
    else ⟨[], .raised (.valueError ("Unsupported HTTP method: " ++ method)), disk, 0⟩

/-- A returned failure indicator (`False` or `None`), as opposed to a
returned path or an uncaught exception. -/
def is_failure_return : DlResult → Bool
  | .retFalse => true
  | .retNone => true
  | .retPath _ => false
  | .raised _ => false

/-- C1 counterexample: `download_large_file` with directory "/tmp" and
method "put" does not return a failure result — it lets the `ValueError`
escape (`except requests.RequestException` does not catch it). -/
theorem unsupported_method_counterexample :
    is_failure_return (download_large_file
      ⟨[], [], none, none, true, "", none, none⟩ .absent
      "http://e/f" "put" (some "/tmp") none ⟨none, false, false⟩).result = false ∧
    (download_large_file ⟨[], [], none, none, true, "", none, none⟩ .absent
      "http://e/f" "put" (some "/tmp") none ⟨none, false, false⟩).result =
      .raised (.valueError "Unsupported HTTP method: put") := by
  constructor <;> rfl

/-- C1 (amended): with a destination directory supplied and a method other
than GET or POST (case-insensitive), `download_large_file` raises the
explicit `Unsupported HTTP method` `ValueError` — an immediate failure that
is not a returned failure indicator — and issues no network call. -/
theorem unsupported_method_raises (st : ClientState) (disk : FileContent)
    (url method ddir : String) (file_name : Option String) (env : DlEnv)
    (hd : ddir ≠ "") (hg : strToLower method ≠ "get") (hp : strToLower method ≠ "post") :
    (download_large_file st disk url method (some ddir) file_name env).calls = [] ∧
    (download_large_file st disk url method (some ddir) file_name env).result =
      .raised (.valueError ("Unsupported HTTP method: " ++ method)) := by
  have hf : isFalsyArg (some ddir) = false := by
    simp [isFalsyArg, hd]
  constructor <;> simp [download_large_file, hf, hg, hp]

/-- Witness for the amended C1 at method "PuT". -/
theorem unsupported_method_raises_witness :
    ("/tmp" : String) ≠ "" ∧ strToLower "PuT" ≠ "get" ∧ strToLower "PuT" ≠ "post" ∧
    ((download_large_file ⟨[], [], none, none, true, "", none, none⟩ .absent
        "http://e/f" "PuT" (some "/tmp") none ⟨none, false, false⟩).calls = [] ∧
     (download_large_file ⟨[], [], none, none, true, "", none, none⟩ .absent
        "http://e/f" "PuT" (some "/tmp") none ⟨none, false, false⟩).result =
      .raised (.valueError ("Unsupported HTTP method: " ++ "PuT"))) :=
  ⟨by decide, by decide, by decide,
   unsupported_method_raises ⟨[], [], none, none, true, "", none, none⟩ .absent
     "http://e/f" "PuT" "/tmp" none ⟨none, false, false⟩
     (by decide) (by decide) (by decide)⟩

/-- C9: `download_large_file` never reads or writes the persisted cookie
jar — the on-disk jar is unchanged on every path, success or failure — and
every streaming call it issues carries exactly the client's in-memory
cookie mapping. -/
theorem download_frame_on_jar (st : ClientState) (disk : FileContent)
    (url method : String) (download_dir file_name : Option String) (env : DlEnv) :
    (download_large_file st disk url method download_dir file_name env).disk = disk ∧
    ((download_large_file st disk url method download_dir file_name env).calls.all
      (fun c => c.cookies == st.cookies)) = true := by
  obtain ⟨net, sf, fa⟩ := env
  by_cases h0 : isFalsyArg download_dir = true
  · simp [download_large_file, h0]
  · by_cases hm : strToLower method = "get" ∨ strToLower method = "post"
    · cases net with
      | none => simp [download_large_file, h0, hm]
      | some r =>
          by_cases hs : is_error_status r.status_code = true
          · simp [download_large_file, h0, hm, hs]
          · cases hf : dl_filename r.content_disposition file_name with
            | none => simp [download_large_file, h0, hm, hs, hf]
            | some fn =>
                by_cases hsf : sf = true
                · simp [download_large_file, h0, hm, hs, hf, hsf]
                · by_cases hfa : fa = true
                  · simp [download_large_file, h0, hm, hs, hf, hsf, hfa]
                  · simp [download_large_file, h0, hm, hs, hf, hsf, hfa]
    · simp [download_large_file, h0, hm]

/-- C10: when the response carries no content-disposition filename and no
fallback `file_name` was supplied, `download_large_file` does not return a
failure indicator: it raises a `TypeError` composing the destination path,
since its handler catches only `requests.RequestException`. -/
theorem missing_filename_raises (st : ClientState) (disk : FileContent)
    (url method ddir : String) (env : DlEnv) (r : DlResp)
    (hd : ddir ≠ "")
    (hm : strToLower method = "get" ∨ strToLower method = "post")
    (hn : env.net = some r)
    (hs : is_error_status r.status_code = false)
    (hf : dl_filename r.content_disposition none = none) :
    (download_large_file st disk url method (some ddir) none env).result =
      .raised (.typeError "join() argument must be str, bytes, or os.PathLike object, not NoneType") ∧
    is_failure_return
      (download_large_file st disk url method (some ddir) none env).result = false := by
  have hfalsy : isFalsyArg (some ddir) = false := by
    simp [isFalsyArg, hd]
  constructor <;> simp [download_large_file, hfalsy, hm, hn, hs, hf, is_failure_return]

/-- Witness for C10: a 200 response with no content-disposition at all. -/
theorem missing_filename_raises_witness :
    ("/tmp" : String) ≠ "" ∧
    (strToLower "get" = "get" ∨ strToLower "get" = "post") ∧
    (DlEnv.mk (some ⟨200, 0, none, [5]⟩) false false).net = some ⟨200, 0, none, [5]⟩ ∧
    is_error_status 200 = false ∧
    dl_filename none none = none ∧
    ((download_large_file ⟨[], [], none, none, true, "", none, none⟩ .absent
        "http://e/f" "get" (some "/tmp") none ⟨some ⟨200, 0, none, [5]⟩, false, false⟩).result =
      .raised (.typeError "join() argument must be str, bytes, or os.PathLike object, not NoneType") ∧
     is_failure_return
      (download_large_file ⟨[], [], none, none, true, "", none, none⟩ .absent
        "http://e/f" "get" (some "/tmp") none ⟨some ⟨200, 0, none, [5]⟩, false, false⟩).result = false) :=
  ⟨by decide, Or.inl (by decide), rfl, by decide, rfl,
   missing_filename_raises ⟨[], [], none, none, true, "", none, none⟩ .absent
     "http://e/f" "get" "/tmp" ⟨some ⟨200, 0, none, [5]⟩, false, false⟩ ⟨200, 0, none, [5]⟩
     (by decide) (Or.inl (by decide)) rfl (by decide) rfl⟩

/-- Python `str.split('/')` on the underlying characters. -/
def splitSlashChars : List Char → List Char → List String
  | [], acc => [⟨acc.reverse⟩]
  | c :: cs, acc =>
      if c = '/' then ⟨acc.reverse⟩ :: splitSlashChars cs []
      else splitSlashChars cs (c :: acc)

/-- Python `s.split('/')`. -/
def strSplitSlash (s : String) : List String :=
  splitSlashChars s.data []

/-- `os.path.basename` for forward-slash paths. -/
def os_basename (p : String) : String :=
  match (strSplitSlash p).reverse with
  | [] => ""
  | x :: _ => x

/-- One FTP protocol action `upload_ftp` performs against its server. -/
inductive FtpOp where
  | connect (host : String) (port : Nat)
  | login (user pw : String)
  | setPasv (b : Bool)
  | cwd (d : String)
  | mkd (d : String)
  | stor (name : String)
  | quit
deriving DecidableEq, Repr

/-- Behaviour of the FTP server `upload_ftp` runs against: whether
connect/login succeed, the set of directories that exist (entering a
directory succeeds exactly when it is listed; `mkd` appends it), whether
`mkd` succeeds, and whether the `STOR` transfer succeeds. -/
structure FtpEnv where
  connect_ok : Bool
  login_ok : Bool
  dirs : List String
  mkd_ok : Bool
  stor_ok : Bool
deriving DecidableEq, Repr

/-- Observable trace of one `upload_ftp` call: the protocol actions in
order, and the returned value (`some remote_path` or the `None` of any
failure path). -/
structure FtpTrace where
  ops : List FtpOp
  result : Option String
deriving DecidableEq, Repr

/-- The directory-creation loop of `upload_ftp` (HttpOld.py lines 280-290):
walk the `/`-split segments of `upload_dir`, skip empty ones, extend
`current_dir`, try `cwd`; on `error_perm` do `mkd` then `cwd`.  Returns the
accumulated ops and `some` updated directory set, or `none` when `mkd`
raised (caught by `except Exception: return None`). -/
def ftp_mkdir_loop (mkd_ok : Bool) :
    List String → List String → String → List FtpOp → List FtpOp × Option (List String)
  | [], dirs, _, ops => (ops, some dirs)
  | seg :: rest, dirs, current, ops =>
      if seg = "" then ftp_mkdir_loop mkd_ok rest dirs current ops
      else
        let current2 := current ++ "/" ++ seg
        let ops2 := ops ++ [.cwd current2]
        if current2 ∈ dirs then ftp_mkdir_loop mkd_ok rest dirs current2 ops2
        else if mkd_ok then
          ftp_mkdir_loop mkd_ok rest (dirs ++ [current2]) current2
            (ops2 ++ [.mkd current2, .cwd current2])
        else (ops2 ++ [.mkd current2], none)

/-- The tail of `upload_ftp` after the target directory is entered
(HttpOld.py lines 297-315): `STOR` the file under its basename (any
exception gives `return None`), compose `upload_dir + "/" + basename`, and
always `quit` in the `finally` block. -/
def ftp_store (ops : List FtpOp) (stor_ok : Bool) (upload_dir file_path : String) :
    FtpTrace :=
  let name := os_basename file_path
  if stor_ok then
    ⟨ops ++ [.stor name, .quit], some (upload_dir ++ "/" ++ name)⟩
  else ⟨ops ++ [.stor name, .quit], none⟩

/-- `upload_ftp` (HttpOld.py lines 242-324): refuse a missing local file
before any connection; connect, login, set passive mode; `cwd upload_dir`,
on `error_perm` run the incremental creation loop; then upload and compose
the remote path.  Every failure after a successful connect still runs
`ftp.quit()` in the `finally` block; a failed connect leaves `ftp.sock`
unset, so no `quit` is attempted. `isfile` is `os.path.isfile(file_path)`.
-/
def upload_ftp (isfile : Bool) (host : String) (port : Nat) (user pw : String)
    (file_path upload_dir : String) (passive : Bool) (env : FtpEnv) : FtpTrace :=
  if !isfile then ⟨[], none⟩
  else if !env.connect_ok then ⟨[.connect host port], none⟩
  else if !env.login_ok then ⟨[.connect host port, .login user pw, .quit], none⟩
  else
    let ops0 : List FtpOp := [.connect host port, .login user pw, .setPasv passive]
    let ops1 := ops0 ++ [.cwd upload_dir]
    if upload_dir ∈ env.dirs then ftp_store ops1 env.stor_ok upload_dir file_path
    else
      match ftp_mkdir_loop env.mkd_ok (strSplitSlash upload_dir) env.dirs "" ops1 with
      | (ops2, none) => ⟨ops2 ++ [.quit], none⟩
      | (ops2, some _) => ftp_store ops2 env.stor_ok upload_dir file_path

/-- C7: `upload_ftp` on a file path that does not reference an existing
local file fails immediately: it returns `None` and performs no FTP action
at all — in particular no connection is opened. -/
theorem upload_missing_file_no_connection (host : String) (port : Nat)
    (user pw file_path upload_dir : String) (passive : Bool) (env : FtpEnv) :
    (upload_ftp false host port user pw file_path upload_dir passive env).ops = [] ∧
    (upload_ftp false host port user pw file_path upload_dir passive env).result = none :=
  ⟨rfl, rfl⟩

/-- C8: uploading into the 3-level nonexistent directory "/a/b/c" (no prefix
of it exists on the server) creates "/a", "/a/b", "/a/b/c" in that order,
the upload succeeds, and the composed remote path
`upload_dir + "/" + basename file_path` is returned. -/
theorem upload_creates_missing_levels (host : String) (port : Nat)
    (user pw file_path : String) (passive : Bool) :
    ((upload_ftp true host port user pw file_path "/a/b/c" passive
        ⟨true, true, [], true, true⟩).ops.filter
      (fun op => match op with | .mkd _ => true | _ => false)) =
      [.mkd "/a", .mkd "/a/b", .mkd "/a/b/c"] ∧
    (upload_ftp true host port user pw file_path "/a/b/c" passive
        ⟨true, true, [], true, true⟩).ops =
      [.connect host port, .login user pw, .setPasv passive, .cwd "/a/b/c",
       .cwd "/a", .mkd "/a", .cwd "/a",
       .cwd "/a/b", .mkd "/a/b", .cwd "/a/b",
       .cwd "/a/b/c", .mkd "/a/b/c", .cwd "/a/b/c",
       .stor (os_basename file_path), .quit] ∧
    (upload_ftp true host port user pw file_path "/a/b/c" passive
        ⟨true, true, [], true, true⟩).result =
      some ("/a/b/c" ++ "/" ++ os_basename file_path) := by
  refine ⟨rfl, rfl, rfl⟩

end PyCurl
